import Mathlib

set_option maxRecDepth 10000

/-!
# Verification of the TMF8805 MicroPython driver

A shallow embedding of `src/tmf8805/tmf8805.py`.  The driver talks to the
sensor through an I2C bus; we model the bus as an oracle (`I2CBus`) that
yields, for each register, the byte string returned by the k-th read of
that register, together with the bus-scan result and a wall-clock oracle
for `utime.time()`.  The driver's observable effects (register writes and
millisecond sleeps) are collected in an event trace inside `DriverState`.

Python integers are modelled as `Nat` (all values in the driver are
non-negative; the one subtraction, in `perform_calibration`, is done in
`Int` to mirror Python semantics).  Python strings are modelled as Lean
`String`/`List Char`; `bytes` values as `List Nat`.  A Python function
that can raise (`bytes.fromhex` on a malformed string) is modelled with
`Option`, where `none` is a raised exception escaping the driver.
-/

/-! ## Python helpers -/

/-- Python `str(n)` for a non-negative `int`: decimal digits, `"0"` for 0. -/
def pyStr (n : Nat) : List Char := Nat.toDigits 10 n

/-- Python `bin(n)` for a non-negative `int`: `"0b"` followed by the binary
digits without leading zeros (`"0b0"` for 0). -/
def pyBin (n : Nat) : List Char := '0' :: 'b' :: Nat.toDigits 2 n

/-- Value of one hexadecimal digit, as accepted by `int(_, 16)` and
`bytes.fromhex`; `none` on a non-hex character. -/
def fromHexDigit? (c : Char) : Option Nat :=
  if '0' ≤ c ∧ c ≤ '9' then some (c.toNat - '0'.toNat)
  else if 'a' ≤ c ∧ c ≤ 'f' then some (c.toNat - 'a'.toNat + 10)
  else if 'A' ≤ c ∧ c ≤ 'F' then some (c.toNat - 'A'.toNat + 10)
  else none

/-- Python `bytes.fromhex`: pairs of hex digits, one byte per pair; raises
(`none`) on an odd number of digits or a non-hex character.  (The call
sites in this driver never contain the whitespace that `fromhex` would
additionally allow, so whitespace handling is not modelled.) -/
def bytesFromHex : List Char → Option (List Nat)
  | [] => some []
  | [_] => none
  | c1 :: c2 :: rest =>
    match fromHexDigit? c1, fromHexDigit? c2, bytesFromHex rest with
    | some h, some l, some bs => some ((16 * h + l) :: bs)
    | _, _, _ => none

/-- Fold a list of hex digits into a number (used for the `0x…` branch of
`int(s, 0)`; all call sites pass well-formed literals). -/
def foldHexDigits : List Char → Nat → Nat
  | [], acc => acc
  | c :: rest, acc => foldHexDigits rest (16 * acc + ((fromHexDigit? c).getD 0))

/-- Fold a list of decimal digits into a number. -/
def foldDecDigits : List Char → Nat → Nat
  | [], acc => acc
  | c :: rest, acc => foldDecDigits rest (10 * acc + (c.toNat - '0'.toNat))

/-- Python `int(s, 0)` restricted to the shapes occurring in this driver:
a `0x`/`0X`-prefixed hexadecimal literal, or a plain decimal literal. -/
def pyIntBase0 (s : List Char) : Nat :=
  if s.take 2 = ['0', 'x'] ∨ s.take 2 = ['0', 'X'] then foldHexDigits (s.drop 2) 0
  else foldDecDigits s 0

/-- Python `int(s, 2)` on a string of binary digits. -/
def pyIntBase2 (s : List Char) : Nat :=
  s.foldl (fun acc c => 2 * acc + (if c = '1' then 1 else 0)) 0

/-- Python `int.from_bytes(value, sys.byteorder)` with the RP2040's
little-endian byte order: first byte is least significant. -/
def fromBytesLE : List Nat → Nat
  | [] => 0
  | b :: rest => b + 256 * fromBytesLE rest

/-! ## Constants of `tmf8805.py` (kept as the hex strings of the source) -/

def DEFAULT_I2C_ADDR : String := "0x41"
def CPU_READY_TIMEOUT : Nat := 200
def APPLICATION_READY_TIMEOUT : Nat := 500
def DATA_AVAILABLE_TIMEOUT : Nat := 500
def APPLICATION : String := "0xc0"
def COMMAND_CALIBRATION : String := "0x0b"
def COMMAND_FACTORY_CALIBRATION : String := "0x0a"
def COMMAND_MEASURE : String := "0x02"
def COMMAND_RESULT : String := "0x55"
def INTERRUPT_MASK : String := "0x01"
def CONTENT_CALIBRATION : String := "0x0a"

/-- The 11-entry algorithm state constant (source comment: taken from
AN000597, pp 22). -/
def ALGO_STATE : List String :=
  ["0xB1", "0xA9", "0x02", "0x00", "0x00", "0x00", "0x00", "0x00", "0x00",
   "0x00", "0x00"]

def CPU_READY : String := "0x06"
def REGISTER_APPID : String := "0x00"
def REGISTER_APPREQID : String := "0x02"
def REGISTER_COMMAND : String := "0x10"
def REGISTER_STATUS : String := "0x1D"
def REGISTER_REGISTER_CONTENTS : String := "0x1E"
def REGISTER_RESULT_INFO : String := "0x21"
def REGISTER_DISTANCE_PEAK_0 : String := "0x22"
def REGISTER_DISTANCE_PEAK_1 : String := "0x23"
def REGISTER_FACTORY_CALIB_0 : String := "0x20"
def REGISTER_STATE_DATA_WR_0 : String := "0x2E"
def REGISTER_ENABLE_REG : String := "0xE0"
def REGISTER_INT_STATUS : String := "0xE1"
def REGISTER_INT_ENAB : String := "0xE2"
def CALIBRATION_DATA_LENGTH : Nat := 14
def MISSING_FACTORY_CALIBRATION : Nat := 39

/-! ## Bus oracle, driver state, events -/

/-- An observable side effect of the driver: a register write
(`i2c.writeto_mem`) or a millisecond sleep (`utime.sleep_ms`).
Watchdog feeds and `print` calls have no modelled effect. -/
inductive Event where
  | write (addr : Nat) (memaddr : Nat) (buf : List Nat) : Event
  | sleepMs (ms : Nat) : Event
deriving DecidableEq, Repr

/-- The external world: the I2C bus and the wall clock.
`readMem reg k n` is the byte string returned by the k-th
`readfrom_mem` issued to register `reg`, when `n` bytes are requested;
`timeVal k` is the value of the k-th call to `utime.time()`. -/
structure I2CBus where
  scanResult : List Nat
  readMem : Nat → Nat → Nat → List Nat
  timeVal : Nat → Nat

/-- Mutable state threaded through the driver: how many reads each
register has seen (to index the oracle), how many `utime.time()` calls
happened, and the trace of observable events, oldest first. -/
structure DriverState where
  counts : Nat → Nat
  timeCount : Nat
  events : List Event

def initState : DriverState := ⟨fun _ => 0, 0, []⟩

def pushEvent (s : DriverState) (e : Event) : DriverState :=
  { s with events := s.events ++ [e] }

def bumpCount (s : DriverState) (reg : Nat) : DriverState :=
  { s with counts := fun r => if r = reg then s.counts reg + 1 else s.counts r }

/-- Models `utime.sleep_ms(ms)`, recorded as an event. -/
def sleep_ms (s : DriverState) (ms : Nat) : DriverState :=
  pushEvent s (.sleepMs ms)

/-- Models `utime.time()`, read from the wall-clock oracle. -/
def py_time (bus : I2CBus) (s : DriverState) : Nat × DriverState :=
  (bus.timeVal s.timeCount, { s with timeCount := s.timeCount + 1 })

/-- The driver object; only the fields that influence modelled behavior. -/
structure TMF8805 where
  address : String
  debug : Bool

/-- Models `TMF8805.hex_to_dec`: `int(hex_value, 0)`. -/
def hex_to_dec (hex_value : String) : Nat := pyIntBase0 hex_value.toList

/-- Models `TMF8805.is_connected`: scans the bus and checks for the configured
address. -/
def is_connected (self : TMF8805) (bus : I2CBus) : Bool :=
  bus.scanResult.contains (hex_to_dec self.address)

/-- Models `TMF8805.read_single_byte`: one-byte `readfrom_mem`, then
`int.from_bytes(_, sys.byteorder)`. -/
def read_single_byte (self : TMF8805) (bus : I2CBus) (s : DriverState)
    (register : String) : Nat × DriverState :=
  let _ := self
  let reg := hex_to_dec register
  (fromBytesLE (bus.readMem reg (s.counts reg) 1), bumpCount s reg)

/-- Models `TMF8805.read_bytes`: `byte_count`-byte `readfrom_mem`. -/
def read_bytes (self : TMF8805) (bus : I2CBus) (s : DriverState)
    (register : String) (byte_count : Nat) : List Nat × DriverState :=
  let _ := self
  let reg := hex_to_dec register
  (bus.readMem reg (s.counts reg) byte_count, bumpCount s reg)

/-- A raw `i2c.writeto_mem` call. -/
def writeto_mem (s : DriverState) (addr : Nat) (memaddr : Nat)
    (buf : List Nat) : DriverState :=
  pushEvent s (.write addr memaddr buf)

/-- Models `TMF8805.write_bytes`: strips a leading `"0x"`, left-pads a single
digit with `'0'`, then writes `bytes.fromhex(value)`; `none` models the
`ValueError` raised by `fromhex` on a malformed string. -/
def write_bytes (self : TMF8805) (s : DriverState) (register : String)
    (value : String) : Option DriverState :=
  let v := value.toList
  let v := if v.take 2 = ['0', 'x'] then v.drop 2 else v
  let v := if v.length = 1 then '0' :: v else v
  match bytesFromHex v with
  | none => none
  | some buf =>
    some (writeto_mem s (hex_to_dec self.address) (hex_to_dec register) buf)

/-- Models `TMF8805.set_register_bit`: writes the Python bytes literal `b"1"`,
i.e. the single byte 0x31 (ASCII `'1'`). -/
def set_register_bit (self : TMF8805) (s : DriverState)
    (register : String) : DriverState :=
  writeto_mem s (hex_to_dec self.address) (hex_to_dec register) [49]

/-- Models `TMF8805.is_bit_set`: reads the register and tests
`value & (1 << position)`. -/
def is_bit_set (self : TMF8805) (bus : I2CBus) (s : DriverState)
    (register : String) (position : String) : Bool × DriverState :=
  let r := read_single_byte self bus s register
  (r.1 &&& (1 <<< hex_to_dec position) != 0, r.2)

/-! ## Driver operations -/

/-- Models `TMF8805.reset_cpu`: `set_register_bit(REGISTER_ENABLE_REG)`. -/
def reset_cpu (self : TMF8805) (s : DriverState) : DriverState :=
  set_register_bit self s REGISTER_ENABLE_REG

/-- The `while counter < CPU_READY_TIMEOUT and not ready` loop of
`TMF8805.is_cpu_ready`, with the remaining iteration budget as the
recursion argument; each failed check sleeps 100 ms. -/
def is_cpu_ready_loop (self : TMF8805) (bus : I2CBus) :
    Nat → DriverState → Bool × DriverState
  | 0, s => (false, s)
  | fuel + 1, s =>
    let r := is_bit_set self bus s REGISTER_ENABLE_REG CPU_READY
    if r.1 then (true, r.2)
    else is_cpu_ready_loop self bus fuel (sleep_ms r.2 100)

/-- Models `TMF8805.is_cpu_ready`: polls bit `CPU_READY` of the enable register,
at most `CPU_READY_TIMEOUT` times. -/
def is_cpu_ready (self : TMF8805) (bus : I2CBus) (s : DriverState) :
    Bool × DriverState :=
  is_cpu_ready_loop self bus CPU_READY_TIMEOUT s

/-- Models `TMF8805.get_status`: reads the status register and decodes it. -/
def get_status (self : TMF8805) (bus : I2CBus) (s : DriverState) :
    (String × String) × DriverState :=
  let st := read_single_byte self bus s REGISTER_STATUS
  if st.1 = MISSING_FACTORY_CALIBRATION then
    (("ErrMissingFactCal",
      "There is no (or no valid) factory calibration on the device. Using default values instead."),
     st.2)
  else ((String.mk (pyStr st.1), "N/A"), st.2)

/-- Models `TMF8805.get_current_calibration`: 14 bytes from the factory
calibration base register. -/
def get_current_calibration (self : TMF8805) (bus : I2CBus)
    (s : DriverState) : List Nat × DriverState :=
  read_bytes self bus s REGISTER_FACTORY_CALIB_0 CALIBRATION_DATA_LENGTH

/-- Models `TMF8805.clear_interrupt_flag`: read the interrupt-status register, OR
in the interrupt mask, and write `str(value)` back to the
interrupt-status register through `write_bytes`. -/
def clear_interrupt_flag (self : TMF8805) (bus : I2CBus)
    (s : DriverState) : Option DriverState :=
  let r := read_single_byte self bus s REGISTER_INT_STATUS
  let value := r.1 ||| pyIntBase0 INTERRUPT_MASK.toList
  write_bytes self r.2 REGISTER_INT_STATUS (String.mk (pyStr value))

/-- Models `TMF8805.enable_interrupt`: read the interrupt-status register, OR in
the interrupt mask, and write `str(value)` to the interrupt-enable
register through `write_bytes`. -/
def enable_interrupt (self : TMF8805) (bus : I2CBus) (s : DriverState) :
    Option DriverState :=
  let r := read_single_byte self bus s REGISTER_INT_STATUS
  let value := r.1 ||| pyIntBase0 INTERRUPT_MASK.toList
  write_bytes self r.2 REGISTER_INT_ENAB (String.mk (pyStr value))

/-- The `while (utime.time() - start_of_calibration) < 30` loop of
`TMF8805.perform_calibration`.  Each iteration: read the clock; if less
than 30 s have elapsed, sleep 50 ms, read the register-contents register,
and on the calibration marker sleep 10 ms and read the 14-byte blob
(`break`); otherwise keep looping.  `fuel` bounds the recursion; the
theorems below only use runs in which the loop exits within `fuel`
iterations. -/
def perform_calibration_loop (self : TMF8805) (bus : I2CBus)
    (start : Nat) : Nat → DriverState → List Nat × DriverState
  | 0, s => ([], s)
  | fuel + 1, s =>
    let t := py_time bus s
    if ((t.1 : Int) - (start : Int)) < 30 then
      let s1 := sleep_ms t.2 50
      let v := read_single_byte self bus s1 REGISTER_REGISTER_CONTENTS
      if v.1 = hex_to_dec CONTENT_CALIBRATION then
        let s2 := sleep_ms v.2 10
        read_bytes self bus s2 REGISTER_FACTORY_CALIB_0 CALIBRATION_DATA_LENGTH
      else perform_calibration_loop self bus start fuel v.2
    else ([], t.2)

/-- Models `TMF8805.perform_calibration`: enable interrupt, write the factory
calibration command, then run the wall-clock-bounded polling loop.
Returns `none` when `enable_interrupt` raises. -/
def perform_calibration (self : TMF8805) (bus : I2CBus) (s : DriverState)
    (fuel : Nat) : Option (List Nat × DriverState) :=
  match enable_interrupt self bus s with
  | none => none
  | some s1 =>
    match write_bytes self s1 REGISTER_COMMAND COMMAND_FACTORY_CALIBRATION with
    | none => none
    | some s2 =>
      let t := py_time bus s2
      some (perform_calibration_loop self bus t.1 fuel t.2)

/-- Models `TMF8805.set_calibration`: write the calibration command, write the
blob to the factory calibration base register, then write the joined
`ALGO_STATE` constant to the state-data write register. -/
def set_calibration (self : TMF8805) (s : DriverState)
    (calibration_data : List Nat) : Option DriverState :=
  match write_bytes self s REGISTER_COMMAND COMMAND_CALIBRATION with
  | none => none
  | some s1 =>
    let s2 := writeto_mem s1 (hex_to_dec self.address)
      (hex_to_dec REGISTER_FACTORY_CALIB_0) calibration_data
    write_bytes self s2 REGISTER_STATE_DATA_WR_0
      (String.mk ((ALGO_STATE.map (fun entry => entry.toList.drop 2)).flatten))

/-- Models `TMF8805.load_measurement_application`: write the application selector
to the application-request register. -/
def load_measurement_application (self : TMF8805) (s : DriverState) :
    Option DriverState :=
  write_bytes self s REGISTER_APPREQID APPLICATION

/-- The polling loop of `TMF8805.is_application_ready`; each failed check
sleeps 100 ms. -/
def is_application_ready_loop (self : TMF8805) (bus : I2CBus) :
    Nat → DriverState → Bool × DriverState
  | 0, s => (false, s)
  | fuel + 1, s =>
    let r := read_single_byte self bus s REGISTER_APPID
    if r.1 == hex_to_dec APPLICATION then (true, r.2)
    else is_application_ready_loop self bus fuel (sleep_ms r.2 100)

/-- Models `TMF8805.is_application_ready`: polls the application-ID register, at
most `APPLICATION_READY_TIMEOUT` times. -/
def is_application_ready (self : TMF8805) (bus : I2CBus)
    (s : DriverState) : Bool × DriverState :=
  is_application_ready_loop self bus APPLICATION_READY_TIMEOUT s

/-- Models `TMF8805.start_measurement_application`: write the measure command. -/
def start_measurement_application (self : TMF8805) (s : DriverState) :
    Option DriverState :=
  write_bytes self s REGISTER_COMMAND COMMAND_MEASURE

/-- The polling loop of `TMF8805.is_data_available`; each failed check
sleeps 10 ms. -/
def is_data_available_loop (self : TMF8805) (bus : I2CBus) :
    Nat → DriverState → Bool × DriverState
  | 0, s => (false, s)
  | fuel + 1, s =>
    let r := read_single_byte self bus s REGISTER_REGISTER_CONTENTS
    if r.1 == pyIntBase0 COMMAND_RESULT.toList then (true, r.2)
    else is_data_available_loop self bus fuel (sleep_ms r.2 10)

/-- Models `TMF8805.is_data_available`: polls the register-contents register for
the result marker, at most `DATA_AVAILABLE_TIMEOUT` times. -/
def is_data_available (self : TMF8805) (bus : I2CBus) (s : DriverState) :
    Bool × DriverState :=
  is_data_available_loop self bus DATA_AVAILABLE_TIMEOUT s

/-- Models `TMF8805.initialize`: connectivity check, CPU reset, CPU-ready
polling. -/
def initSensor (self : TMF8805) (bus : I2CBus) (s : DriverState) :
    Bool × DriverState :=
  if !is_connected self bus then (false, s)
  else
    let s1 := reset_cpu self s
    let cr := is_cpu_ready self bus s1
    if !cr.1 then (false, cr.2) else (true, cr.2)

/-- Lines 475–480 of `TMF8805.get_measurement`: `bin(result_info)`,
strip the `"0b"` prefix, reverse, right-pad with `'0'` to 8 characters,
then `int(s[:6], 2)` and `int(s[6:8], 2)`. -/
def decode_result_info (b : Nat) : Nat × Nat :=
  let result_info := pyBin b
  let result_info := result_info.drop 2
  let result_info := result_info.reverse
  let result_info := result_info ++ List.replicate (8 - result_info.length) '0'
  (pyIntBase2 (result_info.take 6), pyIntBase2 ((result_info.drop 6).take 2))

/-- The value of the Python expression returned by
`TMF8805.get_measurement`: the literal `False` on a polling timeout, or
the measured distance. -/
inductive PyMeasure where
  | pyFalse : PyMeasure
  | pyInt (n : Nat) : PyMeasure
deriving DecidableEq, Repr

/-- Models `TMF8805.get_measurement`: load the measurement application, wait for
it, start it, enable the interrupt, wait for data, then decode the
result-info byte and assemble the distance from the two peak registers. -/
def get_measurement (self : TMF8805) (bus : I2CBus) (s : DriverState) :
    Option (PyMeasure × DriverState) :=
  match load_measurement_application self s with
  | none => none
  | some s1 =>
    let ar := is_application_ready self bus s1
    if !ar.1 then some (.pyFalse, ar.2)
    else
      match start_measurement_application self ar.2 with
      | none => none
      | some s3 =>
        match enable_interrupt self bus s3 with
        | none => none
        | some s4 =>
          let da := is_data_available self bus s4
          if !da.1 then some (.pyFalse, da.2)
          else
            let ri := read_single_byte self bus da.2 REGISTER_RESULT_INFO
            let _ := decode_result_info ri.1
            let p1 := read_single_byte self bus ri.2 REGISTER_DISTANCE_PEAK_1
            let p0 := read_single_byte self bus p1.2 REGISTER_DISTANCE_PEAK_0
            some (.pyInt ((p1.1 <<< 8) + p0.1), p0.2)

/-! ## Verification infrastructure

The three source polling loops share one skeleton; `poll_loop` abstracts
it (register to poll, success predicate on the read value, per-iteration
sleep), and each source loop is proved equal to its instance so that the
bounded-polling lemmas can be established once. -/

/-- Generic bounded polling loop: read `register`, stop with `true` when
`good` holds of the value, otherwise sleep `delay` ms and retry while
fuel remains. -/
def poll_loop (self : TMF8805) (bus : I2CBus) (register : String)
    (good : Nat → Bool) (delay : Nat) :
    Nat → DriverState → Bool × DriverState
  | 0, s => (false, s)
  | fuel + 1, s =>
    let r := read_single_byte self bus s register
    if good r.1 then (true, r.2)
    else poll_loop self bus register good delay fuel (sleep_ms r.2 delay)

/-- Success predicate polled by `is_cpu_ready`. -/
def cpuReadyGood (v : Nat) : Bool := v &&& (1 <<< hex_to_dec CPU_READY) != 0

/-- Success predicate polled by `is_application_ready`. -/
def appReadyGood (v : Nat) : Bool := v == hex_to_dec APPLICATION

/-- Success predicate polled by `is_data_available`. -/
def dataAvailableGood (v : Nat) : Bool := v == pyIntBase0 COMMAND_RESULT.toList

/-! ## Spec-side decode description and concrete fixture buses

`reverseBits8`/`reverseBits6` follow the wording of the result-info claim
("reversing the bit order of its 8-bit representation"), to be compared
with `decode_result_info`, which is translated from the source's string
manipulation. -/

/-- Bit-order reversal of the 8-bit representation: bit `i` of the input
becomes bit `7 - i` of the output. -/
def reverseBits8 (b : Nat) : Nat :=
  (List.range 8).foldl (fun acc i => 2 * acc + b / 2 ^ i % 2) 0

/-- Bit-order reversal of a 6-bit field: bit `i` becomes bit `5 - i`. -/
def reverseBits6 (b : Nat) : Nat :=
  (List.range 6).foldl (fun acc i => 2 * acc + b / 2 ^ i % 2) 0

/-- A driver constructed with the default address `"0x41"`. -/
def self41 : TMF8805 := ⟨"0x41", false⟩

/-- Fixture bus for the measurement path: application ready at once,
data available at once, interrupt status 0x01, result info 0x3F,
peak bytes 0x04/0xE2, CPU-ready bit set. -/
def busMeasure : I2CBus :=
  { scanResult := [65]
    readMem := fun reg _ _ =>
      if reg = 0 then [192] else if reg = 30 then [85]
      else if reg = 33 then [63] else if reg = 34 then [226]
      else if reg = 35 then [4] else if reg = 224 then [64] else [0]
    timeVal := fun _ => 0 }

/-- Fixture bus on which every register reads as zero. -/
def busAllZero : I2CBus :=
  { scanResult := [65], readMem := fun _ _ _ => [0], timeVal := fun _ => 0 }

/-- Fixture bus: application ready at once but the result marker never
appears; interrupt status reads 0x00. -/
def busNoData : I2CBus :=
  { scanResult := [65]
    readMem := fun reg _ _ => if reg = 0 then [192] else [0]
    timeVal := fun _ => 0 }

/-- Fixture bus: CPU-ready bit appears on the second read of the enable
register; application ID appears on the third read; result marker on the
second read of the register-contents register. -/
def busSecondTry : I2CBus :=
  { scanResult := [65]
    readMem := fun reg k _ =>
      if reg = 224 then (if k = 0 then [0] else [64])
      else if reg = 0 then (if k ≤ 1 then [0] else [192])
      else if reg = 30 then (if k = 0 then [0] else [85])
      else [0]
    timeVal := fun _ => 0 }

/-- Fixture bus whose interrupt-status register reads 0x16 = 22, so the
ORed mask value is 23. -/
def busInt22 : I2CBus :=
  { scanResult := [], readMem := fun _ _ _ => [22], timeVal := fun _ => 0 }

/-- Fixture bus whose interrupt-status register reads 0x80 = 128, so the
ORed mask value is 129 ≥ 100. -/
def busInt128 : I2CBus :=
  { scanResult := [], readMem := fun _ _ _ => [128], timeVal := fun _ => 0 }

/-- Fixture bus for a calibration run that succeeds on the first poll:
the clock stands still, the register-contents register reads 0x0A, and
the factory-calibration range reads `n` bytes of 0x07. -/
def busCalibOk : I2CBus :=
  { scanResult := []
    readMem := fun reg _ n =>
      if reg = 30 then [10] else if reg = 225 then [1] else List.replicate n 7
    timeVal := fun _ => 0 }

/-- Fixture bus for a calibration run that times out at once: the second
clock reading is already 50 s past the first. -/
def busCalibTimeout : I2CBus :=
  { scanResult := [], readMem := fun _ _ _ => [1], timeVal := fun k => 50 * k }

/-- Fixture bus whose scan result is empty. -/
def busEmptyScan : I2CBus :=
  { scanResult := [], readMem := fun _ _ _ => [0], timeVal := fun _ => 0 }

/-- Fixture bus whose status register reads 39. -/
def busStatus39 : I2CBus :=
  { scanResult := [], readMem := fun _ _ _ => [39], timeVal := fun _ => 0 }

/-- Fixture bus whose status register reads the two bytes `[15, 39]`,
little-endian 9999 (as the repository's own mock does). -/
def busStatus9999 : I2CBus :=
  { scanResult := [], readMem := fun _ _ _ => [15, 39], timeVal := fun _ => 0 }

/-! ### State bookkeeping lemmas -/

@[simp] lemma counts_pushEvent (s : DriverState) (e : Event) :
    (pushEvent s e).counts = s.counts := rfl

@[simp] lemma timeCount_pushEvent (s : DriverState) (e : Event) :
    (pushEvent s e).timeCount = s.timeCount := rfl

@[simp] lemma events_pushEvent (s : DriverState) (e : Event) :
    (pushEvent s e).events = s.events ++ [e] := rfl

@[simp] lemma counts_bumpCount (s : DriverState) (reg r : Nat) :
    (bumpCount s reg).counts r = if r = reg then s.counts reg + 1 else s.counts r := rfl

@[simp] lemma timeCount_bumpCount (s : DriverState) (reg : Nat) :
    (bumpCount s reg).timeCount = s.timeCount := rfl

@[simp] lemma events_bumpCount (s : DriverState) (reg : Nat) :
    (bumpCount s reg).events = s.events := rfl

@[simp] lemma counts_sleep_ms (s : DriverState) (ms : Nat) :
    (sleep_ms s ms).counts = s.counts := rfl

@[simp] lemma timeCount_sleep_ms (s : DriverState) (ms : Nat) :
    (sleep_ms s ms).timeCount = s.timeCount := rfl

@[simp] lemma events_sleep_ms (s : DriverState) (ms : Nat) :
    (sleep_ms s ms).events = s.events ++ [.sleepMs ms] := rfl

@[simp] lemma counts_writeto_mem (s : DriverState) (a m : Nat) (buf : List Nat) :
    (writeto_mem s a m buf).counts = s.counts := rfl

@[simp] lemma timeCount_writeto_mem (s : DriverState) (a m : Nat) (buf : List Nat) :
    (writeto_mem s a m buf).timeCount = s.timeCount := rfl

@[simp] lemma events_writeto_mem (s : DriverState) (a m : Nat) (buf : List Nat) :
    (writeto_mem s a m buf).events = s.events ++ [.write a m buf] := rfl

/-! ### Values of the hex-string constants -/

lemma hex_ENABLE_REG : hex_to_dec REGISTER_ENABLE_REG = 224 := by decide
lemma hex_INT_STATUS : hex_to_dec REGISTER_INT_STATUS = 225 := by decide
lemma hex_INT_ENAB : hex_to_dec REGISTER_INT_ENAB = 226 := by decide
lemma hex_APPID : hex_to_dec REGISTER_APPID = 0 := by decide
lemma hex_APPREQID : hex_to_dec REGISTER_APPREQID = 2 := by decide
lemma hex_COMMAND : hex_to_dec REGISTER_COMMAND = 16 := by decide
lemma hex_STATUS_REG : hex_to_dec REGISTER_STATUS = 29 := by decide
lemma hex_REGISTER_CONTENTS : hex_to_dec REGISTER_REGISTER_CONTENTS = 30 := by decide
lemma hex_RESULT_INFO : hex_to_dec REGISTER_RESULT_INFO = 33 := by decide
lemma hex_PEAK_0 : hex_to_dec REGISTER_DISTANCE_PEAK_0 = 34 := by decide
lemma hex_PEAK_1 : hex_to_dec REGISTER_DISTANCE_PEAK_1 = 35 := by decide
lemma hex_FACTORY_CALIB_0 : hex_to_dec REGISTER_FACTORY_CALIB_0 = 32 := by decide
lemma hex_STATE_DATA_WR_0 : hex_to_dec REGISTER_STATE_DATA_WR_0 = 46 := by decide
lemma hex_APPLICATION : hex_to_dec APPLICATION = 192 := by decide
lemma hex_CPU_READY : hex_to_dec CPU_READY = 6 := by decide
lemma hex_CONTENT_CALIBRATION : hex_to_dec CONTENT_CALIBRATION = 10 := by decide
lemma val_INTERRUPT_MASK : pyIntBase0 INTERRUPT_MASK.toList = 1 := by decide
lemma val_COMMAND_RESULT : pyIntBase0 COMMAND_RESULT.toList = 85 := by decide
lemma val_COMMAND_RESULT_data : pyIntBase0 COMMAND_RESULT.data = 85 := by decide

/-! ### The source loops are instances of the generic polling loop -/

lemma is_cpu_ready_loop_eq_poll (self : TMF8805) (bus : I2CBus) :
    ∀ (fuel : Nat) (s : DriverState),
      is_cpu_ready_loop self bus fuel s =
        poll_loop self bus REGISTER_ENABLE_REG cpuReadyGood 100 fuel s := by
  intro fuel
  induction fuel with
  | zero => intro s; rfl
  | succ n ih =>
    intro s
    simp only [is_cpu_ready_loop, poll_loop, is_bit_set, cpuReadyGood]
    split
    · rfl
    · exact ih _

lemma is_application_ready_loop_eq_poll (self : TMF8805) (bus : I2CBus) :
    ∀ (fuel : Nat) (s : DriverState),
      is_application_ready_loop self bus fuel s =
        poll_loop self bus REGISTER_APPID appReadyGood 100 fuel s := by
  intro fuel
  induction fuel with
  | zero => intro s; rfl
  | succ n ih =>
    intro s
    simp only [is_application_ready_loop, poll_loop, appReadyGood]
    split
    · rfl
    · exact ih _

lemma is_data_available_loop_eq_poll (self : TMF8805) (bus : I2CBus) :
    ∀ (fuel : Nat) (s : DriverState),
      is_data_available_loop self bus fuel s =
        poll_loop self bus REGISTER_REGISTER_CONTENTS dataAvailableGood 10 fuel s := by
  intro fuel
  induction fuel with
  | zero => intro s; rfl
  | succ n ih =>
    intro s
    simp only [is_data_available_loop, poll_loop, dataAvailableGood]
    split
    · rfl
    · exact ih _

/-! ### Generic bounded-polling lemmas -/

/-- One successful first check stops the loop at once. -/
lemma poll_loop_first (self : TMF8805) (bus : I2CBus) (register : String)
    (good : Nat → Bool) (delay fuel : Nat) (s : DriverState)
    (h : good (fromBytesLE (bus.readMem (hex_to_dec register)
      (s.counts (hex_to_dec register)) 1)) = true) :
    poll_loop self bus register good delay (fuel + 1) s =
      (true, bumpCount s (hex_to_dec register)) := by
  simp only [poll_loop, read_single_byte, h, if_true]

/-- If every check within the budget fails, the loop returns `false`
after consuming exactly `fuel` reads of the polled register. -/
lemma poll_loop_exhaust (self : TMF8805) (bus : I2CBus) (register : String)
    (good : Nat → Bool) (delay : Nat) :
    ∀ (fuel : Nat) (s : DriverState),
      (∀ k, k < fuel →
        good (fromBytesLE (bus.readMem (hex_to_dec register)
          (s.counts (hex_to_dec register) + k) 1)) = false) →
      (poll_loop self bus register good delay fuel s).1 = false ∧
      ((poll_loop self bus register good delay fuel s).2).counts (hex_to_dec register) =
        s.counts (hex_to_dec register) + fuel := by
  intro fuel
  induction fuel with
  | zero => intro s _; exact ⟨rfl, rfl⟩
  | succ n ih =>
    intro s h
    have h0 := h 0 (Nat.succ_pos n)
    simp only [Nat.add_zero] at h0
    have hstep : ∀ k, k < n →
        good (fromBytesLE (bus.readMem (hex_to_dec register)
          ((sleep_ms (bumpCount s (hex_to_dec register)) delay).counts
            (hex_to_dec register) + k) 1)) = false := by
      intro k hk
      have := h (k + 1) (by omega)
      simpa [Nat.add_assoc, Nat.add_comm 1 k] using this
    obtain ⟨h1, h2⟩ := ih (sleep_ms (bumpCount s (hex_to_dec register)) delay) hstep
    simp only [poll_loop, read_single_byte, h0, Bool.false_eq_true, if_false]
    refine ⟨h1, ?_⟩
    rw [h2]
    simp [Nat.add_assoc, Nat.add_comm 1 n]

/-- If the first successful check is the `k`-th one and it lies within the
budget, the loop returns `true` after exactly `k + 1` reads. -/
lemma poll_loop_found (self : TMF8805) (bus : I2CBus) (register : String)
    (good : Nat → Bool) (delay : Nat) :
    ∀ (fuel k : Nat) (s : DriverState), k < fuel →
      (∀ j, j < k →
        good (fromBytesLE (bus.readMem (hex_to_dec register)
          (s.counts (hex_to_dec register) + j) 1)) = false) →
      good (fromBytesLE (bus.readMem (hex_to_dec register)
        (s.counts (hex_to_dec register) + k) 1)) = true →
      (poll_loop self bus register good delay fuel s).1 = true ∧
      ((poll_loop self bus register good delay fuel s).2).counts (hex_to_dec register) =
        s.counts (hex_to_dec register) + (k + 1) := by
  intro fuel
  induction fuel with
  | zero => intro k s hk; omega
  | succ n ih =>
    intro k s hk hbefore hfound
    cases k with
    | zero =>
      simp only [Nat.add_zero] at hfound
      rw [poll_loop_first self bus register good delay n s hfound]
      simp
    | succ j =>
      have h0 := hbefore 0 (Nat.succ_pos j)
      simp only [Nat.add_zero] at h0
      simp only [poll_loop, read_single_byte, h0, Bool.false_eq_true, if_false]
      have hb : ∀ i, i < j →
          good (fromBytesLE (bus.readMem (hex_to_dec register)
            ((sleep_ms (bumpCount s (hex_to_dec register)) delay).counts
              (hex_to_dec register) + i) 1)) = false := by
        intro i hi
        have := hbefore (i + 1) (by omega)
        simpa [Nat.add_assoc, Nat.add_comm 1 i] using this
      have hf :
          good (fromBytesLE (bus.readMem (hex_to_dec register)
            ((sleep_ms (bumpCount s (hex_to_dec register)) delay).counts
              (hex_to_dec register) + j) 1)) = true := by
        have := hfound
        simpa [Nat.add_assoc, Nat.add_comm 1 j] using this
      obtain ⟨h1, h2⟩ := ih j (sleep_ms (bumpCount s (hex_to_dec register)) delay)
        (by omega) hb hf
      refine ⟨h1, ?_⟩
      rw [h2]
      simp [Nat.add_assoc, Nat.add_comm 1 j]
      omega

/-- The loop answers `true` exactly when some check within the budget
succeeds. -/
lemma poll_loop_true_iff (self : TMF8805) (bus : I2CBus) (register : String)
    (good : Nat → Bool) (delay : Nat) :
    ∀ (fuel : Nat) (s : DriverState),
      (poll_loop self bus register good delay fuel s).1 = true ↔
        ∃ k, k < fuel ∧
          good (fromBytesLE (bus.readMem (hex_to_dec register)
            (s.counts (hex_to_dec register) + k) 1)) = true := by
  intro fuel
  induction fuel with
  | zero =>
    intro s
    simp [poll_loop]
  | succ n ih =>
    intro s
    by_cases h0 : good (fromBytesLE (bus.readMem (hex_to_dec register)
        (s.counts (hex_to_dec register)) 1)) = true
    · rw [poll_loop_first self bus register good delay n s h0]
      simp only [true_iff]
      exact ⟨0, Nat.succ_pos n, by simpa using h0⟩
    · have h0' : good (fromBytesLE (bus.readMem (hex_to_dec register)
          (s.counts (hex_to_dec register)) 1)) = false := by
        simpa using h0
      simp only [poll_loop, read_single_byte, h0', Bool.false_eq_true, if_false]
      rw [ih]
      constructor
      · rintro ⟨k, hk, hg⟩
        refine ⟨k + 1, by omega, ?_⟩
        simpa [Nat.add_assoc, Nat.add_comm 1 k] using hg
      · rintro ⟨k, hk, hg⟩
        cases k with
        | zero => simp only [Nat.add_zero] at hg; exact absurd hg h0
        | succ j =>
          refine ⟨j, by omega, ?_⟩
          simpa [Nat.add_assoc, Nat.add_comm 1 j] using hg

/-! ### Specialized polling lemmas for the three source loops -/

lemma is_cpu_ready_as_poll (self : TMF8805) (bus : I2CBus) (s : DriverState) :
    is_cpu_ready self bus s =
      poll_loop self bus REGISTER_ENABLE_REG cpuReadyGood 100 200 s := by
  unfold is_cpu_ready
  rw [is_cpu_ready_loop_eq_poll]
  rfl

lemma is_application_ready_as_poll (self : TMF8805) (bus : I2CBus) (s : DriverState) :
    is_application_ready self bus s =
      poll_loop self bus REGISTER_APPID appReadyGood 100 500 s := by
  unfold is_application_ready
  rw [is_application_ready_loop_eq_poll]
  rfl

lemma is_data_available_as_poll (self : TMF8805) (bus : I2CBus) (s : DriverState) :
    is_data_available self bus s =
      poll_loop self bus REGISTER_REGISTER_CONTENTS dataAvailableGood 10 500 s := by
  unfold is_data_available
  rw [is_data_available_loop_eq_poll]
  rfl

lemma is_application_ready_first (self : TMF8805) (bus : I2CBus) (s : DriverState)
    (h : fromBytesLE (bus.readMem 0 (s.counts 0) 1) = 192) :
    is_application_ready self bus s = (true, bumpCount s 0) := by
  have hg : appReadyGood (fromBytesLE (bus.readMem (hex_to_dec REGISTER_APPID)
      (s.counts (hex_to_dec REGISTER_APPID)) 1)) = true := by
    simp [appReadyGood, hex_APPID, hex_APPLICATION, h]
  rw [is_application_ready_as_poll, show (500 : Nat) = 499 + 1 from rfl,
    poll_loop_first self bus REGISTER_APPID appReadyGood 100 499 s hg, hex_APPID]

lemma is_data_available_first (self : TMF8805) (bus : I2CBus) (s : DriverState)
    (h : fromBytesLE (bus.readMem 30 (s.counts 30) 1) = 85) :
    is_data_available self bus s = (true, bumpCount s 30) := by
  have hg : dataAvailableGood (fromBytesLE (bus.readMem
      (hex_to_dec REGISTER_REGISTER_CONTENTS)
      (s.counts (hex_to_dec REGISTER_REGISTER_CONTENTS)) 1)) = true := by
    simp [dataAvailableGood, hex_REGISTER_CONTENTS, val_COMMAND_RESULT,
      val_COMMAND_RESULT_data, h]
  rw [is_data_available_as_poll, show (500 : Nat) = 499 + 1 from rfl,
    poll_loop_first self bus REGISTER_REGISTER_CONTENTS dataAvailableGood 10 499 s hg,
    hex_REGISTER_CONTENTS]

lemma is_cpu_ready_exhaust (self : TMF8805) (bus : I2CBus) (s : DriverState)
    (h : ∀ k, k < 200 →
      cpuReadyGood (fromBytesLE (bus.readMem 224 (s.counts 224 + k) 1)) = false) :
    (is_cpu_ready self bus s).1 = false ∧
    ((is_cpu_ready self bus s).2).counts 224 = s.counts 224 + 200 := by
  rw [is_cpu_ready_as_poll]
  have := poll_loop_exhaust self bus REGISTER_ENABLE_REG cpuReadyGood 100 200 s
    (by rw [hex_ENABLE_REG]; exact h)
  rwa [hex_ENABLE_REG] at this

lemma is_application_ready_exhaust (self : TMF8805) (bus : I2CBus) (s : DriverState)
    (h : ∀ k, k < 500 →
      appReadyGood (fromBytesLE (bus.readMem 0 (s.counts 0 + k) 1)) = false) :
    (is_application_ready self bus s).1 = false ∧
    ((is_application_ready self bus s).2).counts 0 = s.counts 0 + 500 := by
  rw [is_application_ready_as_poll]
  have := poll_loop_exhaust self bus REGISTER_APPID appReadyGood 100 500 s
    (by rw [hex_APPID]; exact h)
  rwa [hex_APPID] at this

lemma is_data_available_exhaust (self : TMF8805) (bus : I2CBus) (s : DriverState)
    (h : ∀ k, k < 500 →
      dataAvailableGood (fromBytesLE (bus.readMem 30 (s.counts 30 + k) 1)) = false) :
    (is_data_available self bus s).1 = false ∧
    ((is_data_available self bus s).2).counts 30 = s.counts 30 + 500 := by
  rw [is_data_available_as_poll]
  have := poll_loop_exhaust self bus REGISTER_REGISTER_CONTENTS dataAvailableGood
    10 500 s (by rw [hex_REGISTER_CONTENTS]; exact h)
  rwa [hex_REGISTER_CONTENTS] at this

lemma is_cpu_ready_found (self : TMF8805) (bus : I2CBus) (s : DriverState) (k : Nat)
    (hk : k < 200)
    (hb : ∀ j, j < k →
      cpuReadyGood (fromBytesLE (bus.readMem 224 (s.counts 224 + j) 1)) = false)
    (hf : cpuReadyGood (fromBytesLE (bus.readMem 224 (s.counts 224 + k) 1)) = true) :
    (is_cpu_ready self bus s).1 = true ∧
    ((is_cpu_ready self bus s).2).counts 224 = s.counts 224 + (k + 1) := by
  rw [is_cpu_ready_as_poll]
  have := poll_loop_found self bus REGISTER_ENABLE_REG cpuReadyGood 100 200 k s hk
    (by rw [hex_ENABLE_REG]; exact hb) (by rw [hex_ENABLE_REG]; exact hf)
  rwa [hex_ENABLE_REG] at this

lemma is_application_ready_found (self : TMF8805) (bus : I2CBus) (s : DriverState)
    (k : Nat) (hk : k < 500)
    (hb : ∀ j, j < k →
      appReadyGood (fromBytesLE (bus.readMem 0 (s.counts 0 + j) 1)) = false)
    (hf : appReadyGood (fromBytesLE (bus.readMem 0 (s.counts 0 + k) 1)) = true) :
    (is_application_ready self bus s).1 = true ∧
    ((is_application_ready self bus s).2).counts 0 = s.counts 0 + (k + 1) := by
  rw [is_application_ready_as_poll]
  have := poll_loop_found self bus REGISTER_APPID appReadyGood 100 500 k s hk
    (by rw [hex_APPID]; exact hb) (by rw [hex_APPID]; exact hf)
  rwa [hex_APPID] at this

lemma is_data_available_found (self : TMF8805) (bus : I2CBus) (s : DriverState)
    (k : Nat) (hk : k < 500)
    (hb : ∀ j, j < k →
      dataAvailableGood (fromBytesLE (bus.readMem 30 (s.counts 30 + j) 1)) = false)
    (hf : dataAvailableGood (fromBytesLE (bus.readMem 30 (s.counts 30 + k) 1)) = true) :
    (is_data_available self bus s).1 = true ∧
    ((is_data_available self bus s).2).counts 30 = s.counts 30 + (k + 1) := by
  rw [is_data_available_as_poll]
  have := poll_loop_found self bus REGISTER_REGISTER_CONTENTS dataAvailableGood
    10 500 k s hk (by rw [hex_REGISTER_CONTENTS]; exact hb)
    (by rw [hex_REGISTER_CONTENTS]; exact hf)
  rwa [hex_REGISTER_CONTENTS] at this

lemma is_cpu_ready_true_iff (self : TMF8805) (bus : I2CBus) (s : DriverState) :
    (is_cpu_ready self bus s).1 = true ↔
      ∃ k, k < 200 ∧
        cpuReadyGood (fromBytesLE (bus.readMem 224 (s.counts 224 + k) 1)) = true := by
  rw [is_cpu_ready_as_poll]
  have := poll_loop_true_iff self bus REGISTER_ENABLE_REG cpuReadyGood 100 200 s
  rwa [hex_ENABLE_REG] at this

lemma is_application_ready_true_iff (self : TMF8805) (bus : I2CBus) (s : DriverState) :
    (is_application_ready self bus s).1 = true ↔
      ∃ k, k < 500 ∧
        appReadyGood (fromBytesLE (bus.readMem 0 (s.counts 0 + k) 1)) = true := by
  rw [is_application_ready_as_poll]
  have := poll_loop_true_iff self bus REGISTER_APPID appReadyGood 100 500 s
  rwa [hex_APPID] at this

lemma is_data_available_true_iff (self : TMF8805) (bus : I2CBus) (s : DriverState) :
    (is_data_available self bus s).1 = true ↔
      ∃ k, k < 500 ∧
        dataAvailableGood (fromBytesLE (bus.readMem 30 (s.counts 30 + k) 1)) = true := by
  rw [is_data_available_as_poll]
  have := poll_loop_true_iff self bus REGISTER_REGISTER_CONTENTS dataAvailableGood
    10 500 s
  rwa [hex_REGISTER_CONTENTS] at this

/-! ### Writing decimal strings through the hex writer -/

/-- For `m ≤ 99`, `write_bytes(register, str(m))` succeeds but writes the
byte obtained by reading `m`'s decimal digits as hexadecimal. -/
lemma write_bytes_pyStr_le99 (self : TMF8805) (s : DriverState)
    (register : String) (m : Nat) (h : m ≤ 99) :
    write_bytes self s register (String.mk (pyStr m)) =
      some (writeto_mem s (hex_to_dec self.address) (hex_to_dec register)
        [16 * (m / 10) + m % 10]) := by
  interval_cases m <;> rfl

/-- For `100 ≤ m ≤ 255`, `write_bytes(register, str(m))` raises: the
three-character decimal string is not a valid hex byte encoding. -/
lemma write_bytes_pyStr_ge100 (self : TMF8805) (s : DriverState)
    (register : String) (m : Nat) (h1 : 100 ≤ m) (h2 : m ≤ 255) :
    write_bytes self s register (String.mk (pyStr m)) = none := by
  interval_cases m <;> rfl

lemma enable_interrupt_le99 (self : TMF8805) (bus : I2CBus) (s : DriverState)
    (h : fromBytesLE (bus.readMem 225 (s.counts 225) 1) ||| 1 ≤ 99) :
    enable_interrupt self bus s =
      some (writeto_mem (bumpCount s 225) (hex_to_dec self.address) 226
        [16 * ((fromBytesLE (bus.readMem 225 (s.counts 225) 1) ||| 1) / 10) +
          (fromBytesLE (bus.readMem 225 (s.counts 225) 1) ||| 1) % 10]) := by
  unfold enable_interrupt
  simp only [read_single_byte, hex_INT_STATUS, val_INTERRUPT_MASK]
  rw [write_bytes_pyStr_le99 self _ REGISTER_INT_ENAB _ h, hex_INT_ENAB]

lemma enable_interrupt_ge100 (self : TMF8805) (bus : I2CBus) (s : DriverState)
    (h1 : 100 ≤ fromBytesLE (bus.readMem 225 (s.counts 225) 1) ||| 1)
    (h2 : fromBytesLE (bus.readMem 225 (s.counts 225) 1) ||| 1 ≤ 255) :
    enable_interrupt self bus s = none := by
  unfold enable_interrupt
  simp only [read_single_byte, hex_INT_STATUS, val_INTERRUPT_MASK]
  rw [write_bytes_pyStr_ge100 self _ REGISTER_INT_ENAB _ h1 h2]

lemma clear_interrupt_flag_le99 (self : TMF8805) (bus : I2CBus) (s : DriverState)
    (h : fromBytesLE (bus.readMem 225 (s.counts 225) 1) ||| 1 ≤ 99) :
    clear_interrupt_flag self bus s =
      some (writeto_mem (bumpCount s 225) (hex_to_dec self.address) 225
        [16 * ((fromBytesLE (bus.readMem 225 (s.counts 225) 1) ||| 1) / 10) +
          (fromBytesLE (bus.readMem 225 (s.counts 225) 1) ||| 1) % 10]) := by
  unfold clear_interrupt_flag
  simp only [read_single_byte, hex_INT_STATUS, val_INTERRUPT_MASK]
  rw [write_bytes_pyStr_le99 self _ REGISTER_INT_STATUS _ h, hex_INT_STATUS]

lemma clear_interrupt_flag_ge100 (self : TMF8805) (bus : I2CBus) (s : DriverState)
    (h1 : 100 ≤ fromBytesLE (bus.readMem 225 (s.counts 225) 1) ||| 1)
    (h2 : fromBytesLE (bus.readMem 225 (s.counts 225) 1) ||| 1 ≤ 255) :
    clear_interrupt_flag self bus s = none := by
  unfold clear_interrupt_flag
  simp only [read_single_byte, hex_INT_STATUS, val_INTERRUPT_MASK]
  rw [write_bytes_pyStr_ge100 self _ REGISTER_INT_STATUS _ h1 h2]

/-! ### The fixed command writes -/

lemma load_measurement_application_eq (self : TMF8805) (s : DriverState) :
    load_measurement_application self s =
      some (writeto_mem s (hex_to_dec self.address) 2 [192]) := rfl

lemma start_measurement_application_eq (self : TMF8805) (s : DriverState) :
    start_measurement_application self s =
      some (writeto_mem s (hex_to_dec self.address) 16 [2]) := rfl

lemma set_calibration_eq (self : TMF8805) (s : DriverState) (blob : List Nat) :
    set_calibration self s blob =
      some (writeto_mem
        (writeto_mem (writeto_mem s (hex_to_dec self.address) 16 [11])
          (hex_to_dec self.address) 32 blob)
        (hex_to_dec self.address) 46
        [177, 169, 2, 0, 0, 0, 0, 0, 0, 0, 0]) := rfl

/-! ### Calibration loop lemmas -/

lemma write_factory_calibration_command (self : TMF8805) (s : DriverState) :
    write_bytes self s REGISTER_COMMAND COMMAND_FACTORY_CALIBRATION =
      some (writeto_mem s (hex_to_dec self.address) 16 [10]) := rfl

/-- If the clock stays inside the 30 s budget for the first `K + 1`
checks, the first `K` reads of the register-contents register miss the
calibration marker, and the `K`-th read hits it, the calibration loop
returns the 14-byte factory-calibration read, sleeping 50 ms before every
poll and 10 ms before the final read. -/
lemma calib_loop_success (self : TMF8805) (bus : I2CBus) (start : Nat) :
    ∀ (fuel K : Nat) (s : DriverState), K < fuel →
      (∀ i, i ≤ K →
        ((bus.timeVal (s.timeCount + i) : Int) - (start : Int)) < 30) →
      (∀ i, i < K → fromBytesLE (bus.readMem 30 (s.counts 30 + i) 1) ≠ 10) →
      fromBytesLE (bus.readMem 30 (s.counts 30 + K) 1) = 10 →
      (perform_calibration_loop self bus start fuel s).1 =
        bus.readMem 32 (s.counts 32) 14 ∧
      ((perform_calibration_loop self bus start fuel s).2).events =
        s.events ++ List.replicate (K + 1) (Event.sleepMs 50) ++
          [Event.sleepMs 10] := by
  intro fuel
  induction fuel with
  | zero => intro K s hK; omega
  | succ n ih =>
    intro K s hK htime hmiss hhit
    have ht0 : ((bus.timeVal s.timeCount : Int) - (start : Int)) < 30 := by
      simpa using htime 0 (Nat.zero_le K)
    simp only [perform_calibration_loop, py_time]
    rw [if_pos ht0]
    cases K with
    | zero =>
      have hv : fromBytesLE (bus.readMem 30 (s.counts 30) 1) = 10 := by
        simpa using hhit
      simp only [read_single_byte, hex_REGISTER_CONTENTS, hex_CONTENT_CALIBRATION,
        counts_sleep_ms]
      rw [if_pos (by simpa using hv)]
      constructor
      · simp [read_bytes, hex_FACTORY_CALIB_0, CALIBRATION_DATA_LENGTH]
      · simp [read_bytes, hex_FACTORY_CALIB_0, CALIBRATION_DATA_LENGTH]
    | succ j =>
      have hv : fromBytesLE (bus.readMem 30 (s.counts 30) 1) ≠ 10 := by
        simpa using hmiss 0 (Nat.succ_pos j)
      simp only [read_single_byte, hex_REGISTER_CONTENTS, hex_CONTENT_CALIBRATION,
        counts_sleep_ms]
      rw [if_neg (by simpa using hv)]
      have htime' : ∀ i, i ≤ j →
          ((bus.timeVal ((bumpCount (sleep_ms { s with
              timeCount := s.timeCount + 1 } 50) 30).timeCount + i) : Int) -
            (start : Int)) < 30 := by
        intro i hi
        have := htime (i + 1) (by omega)
        simpa [Nat.add_assoc, Nat.add_comm 1 i] using this
      have hmiss' : ∀ i, i < j →
          fromBytesLE (bus.readMem 30 ((bumpCount (sleep_ms { s with
              timeCount := s.timeCount + 1 } 50) 30).counts 30 + i) 1) ≠ 10 := by
        intro i hi
        have := hmiss (i + 1) (by omega)
        simpa [Nat.add_assoc, Nat.add_comm 1 i] using this
      have hhit' : fromBytesLE (bus.readMem 30 ((bumpCount (sleep_ms { s with
          timeCount := s.timeCount + 1 } 50) 30).counts 30 + j) 1) = 10 := by
        have := hhit
        simpa [Nat.add_assoc, Nat.add_comm 1 j] using this
      obtain ⟨ih1, ih2⟩ := ih j (bumpCount (sleep_ms { s with
        timeCount := s.timeCount + 1 } 50) 30) (by omega) htime' hmiss' hhit'
      constructor
      · rw [ih1]
        simp
      · rw [ih2]
        simp [List.replicate_succ]

/-- If the first `K` iterations stay inside the budget without seeing the
marker and the `K`-th clock check is at or past the 30 s budget, the
calibration loop returns the empty blob, having slept 50 ms before each
of its `K` polls. -/
lemma calib_loop_timeout (self : TMF8805) (bus : I2CBus) (start : Nat) :
    ∀ (fuel K : Nat) (s : DriverState), K < fuel →
      (∀ i, i < K →
        ((bus.timeVal (s.timeCount + i) : Int) - (start : Int)) < 30 ∧
        fromBytesLE (bus.readMem 30 (s.counts 30 + i) 1) ≠ 10) →
      ¬ (((bus.timeVal (s.timeCount + K) : Int) - (start : Int)) < 30) →
      (perform_calibration_loop self bus start fuel s).1 = [] ∧
      ((perform_calibration_loop self bus start fuel s).2).events =
        s.events ++ List.replicate K (Event.sleepMs 50) := by
  intro fuel
  induction fuel with
  | zero => intro K s hK; omega
  | succ n ih =>
    intro K s hK hcont hstop
    cases K with
    | zero =>
      have ht0 : ¬ ((bus.timeVal s.timeCount : Int) - (start : Int)) < 30 := by
        simpa using hstop
      simp only [perform_calibration_loop, py_time]
      rw [if_neg ht0]
      simp
    | succ j =>
      have ht0 : ((bus.timeVal s.timeCount : Int) - (start : Int)) < 30 := by
        simpa using (hcont 0 (Nat.succ_pos j)).1
      have hv : fromBytesLE (bus.readMem 30 (s.counts 30) 1) ≠ 10 := by
        simpa using (hcont 0 (Nat.succ_pos j)).2
      simp only [perform_calibration_loop, py_time]
      rw [if_pos ht0]
      simp only [read_single_byte, hex_REGISTER_CONTENTS, hex_CONTENT_CALIBRATION,
        counts_sleep_ms]
      rw [if_neg (by simpa using hv)]
      have hcont' : ∀ i, i < j →
          ((bus.timeVal ((bumpCount (sleep_ms { s with
              timeCount := s.timeCount + 1 } 50) 30).timeCount + i) : Int) -
            (start : Int)) < 30 ∧
          fromBytesLE (bus.readMem 30 ((bumpCount (sleep_ms { s with
              timeCount := s.timeCount + 1 } 50) 30).counts 30 + i) 1) ≠ 10 := by
        intro i hi
        have := hcont (i + 1) (by omega)
        simpa [Nat.add_assoc, Nat.add_comm 1 i] using this
      have hstop' : ¬ (((bus.timeVal ((bumpCount (sleep_ms { s with
          timeCount := s.timeCount + 1 } 50) 30).timeCount + j) : Int) -
            (start : Int)) < 30) := by
        have := hstop
        simpa [Nat.add_assoc, Nat.add_comm 1 j] using this
      obtain ⟨ih1, ih2⟩ := ih j (bumpCount (sleep_ms { s with
        timeCount := s.timeCount + 1 } 50) 30) (by omega) hcont' hstop'
      constructor
      · exact ih1
      · rw [ih2]
        simp [List.replicate_succ]

/-! ## Claims -/

lemma hex_addr41 : hex_to_dec "0x41" = 65 := by decide

/-- Claim C1: whenever `get_measurement` reaches the result-reading stage
(application ID reads back 0xC0 at once, the result marker 0x55 at once,
and the interrupt-status byte does not trip the `write_bytes` quirk), the
returned distance is `peakHigh * 256 + peakLow`, where `peakHigh` is the
byte read from register 0x23 and `peakLow` the byte read from register
0x22. -/
theorem get_measurement_distance (self : TMF8805) (bus : I2CBus)
    (happ : fromBytesLE (bus.readMem 0 0 1) = 192)
    (hdata : fromBytesLE (bus.readMem 30 0 1) = 85)
    (hint : fromBytesLE (bus.readMem 225 0 1) ||| 1 ≤ 99) :
    (get_measurement self bus initState).map Prod.fst =
      some (.pyInt (fromBytesLE (bus.readMem 35 0 1) * 256 +
        fromBytesLE (bus.readMem 34 0 1))) := by
  have e1 := load_measurement_application_eq self initState
  have e2 : is_application_ready self bus
      (writeto_mem initState (hex_to_dec self.address) 2 [192]) =
      (true, bumpCount (writeto_mem initState (hex_to_dec self.address) 2 [192]) 0) :=
    is_application_ready_first self bus _ happ
  have e3 := start_measurement_application_eq self
    (bumpCount (writeto_mem initState (hex_to_dec self.address) 2 [192]) 0)
  have e4 : enable_interrupt self bus
      (writeto_mem (bumpCount (writeto_mem initState (hex_to_dec self.address) 2 [192]) 0)
        (hex_to_dec self.address) 16 [2]) =
      some (writeto_mem (bumpCount (writeto_mem (bumpCount (writeto_mem initState
          (hex_to_dec self.address) 2 [192]) 0) (hex_to_dec self.address) 16 [2]) 225)
        (hex_to_dec self.address) 226
        [16 * ((fromBytesLE (bus.readMem 225 0 1) ||| 1) / 10) +
          (fromBytesLE (bus.readMem 225 0 1) ||| 1) % 10]) :=
    enable_interrupt_le99 self bus _ hint
  have e5 := is_data_available_first self bus
    (writeto_mem (bumpCount (writeto_mem
        (bumpCount (writeto_mem initState (hex_to_dec self.address) 2 [192]) 0)
        (hex_to_dec self.address) 16 [2]) 225)
      (hex_to_dec self.address) 226
      [16 * ((fromBytesLE (bus.readMem 225 0 1) ||| 1) / 10) +
        (fromBytesLE (bus.readMem 225 0 1) ||| 1) % 10]) hdata
  simp only [get_measurement, e1, e2, e3, e4, e5, read_single_byte,
    hex_RESULT_INFO, hex_PEAK_1, hex_PEAK_0, counts_bumpCount,
    counts_writeto_mem, Bool.not_true, Bool.false_eq_true, if_false,
    Option.map_some]
  simp [initState, Nat.shiftLeft_eq, Nat.mul_comm]

/-- Witness for C1: on the fixture bus with peak-high 0x04 and peak-low
0xE2, the measured distance is 1250. -/
theorem get_measurement_distance_witness :
    (get_measurement self41 busMeasure initState).map Prod.fst =
      some (.pyInt 1250) := by
  rw [get_measurement_distance self41 busMeasure (by decide) (by decide) (by decide)]
  decide

/-- Claim C2: the result-info byte is decoded by reversing the bit order of
its 8-bit representation and splitting the reversed string into a leading
6-bit reliability field and a trailing 2-bit status field; the
reliability field depends only on the low-order 6 bits of the raw byte,
and the raw byte 63 decodes to reliability 63, status 0. -/
theorem decode_result_info_bit_reversal :
    (∀ b, b < 256 → decode_result_info b =
      (reverseBits8 b / 4, reverseBits8 b % 4)) ∧
    (∀ b, b < 256 → (decode_result_info b).1 = reverseBits6 (b % 64)) ∧
    decode_result_info 63 = (63, 0) :=
  ⟨by decide, by decide, by decide⟩

/-- Witness for C2 at the raw byte 63. -/
theorem decode_result_info_bit_reversal_witness :
    decode_result_info 63 = (reverseBits8 63 / 4, reverseBits8 63 % 4) :=
  decode_result_info_bit_reversal.1 63 (by decide)

/-- Claim C3 counterexample: at a concrete 14-byte blob, `set_calibration`
performs its three writes, but the algorithm-state constant written third
has 11 entries, not 10 as the claim states. -/
theorem set_calibration_not_ten_entries :
    (set_calibration self41 initState (List.replicate 14 65)).map
        DriverState.events =
      some [.write 65 16 [11], .write 65 32 (List.replicate 14 65),
            .write 65 46 [177, 169, 2, 0, 0, 0, 0, 0, 0, 0, 0]] ∧
    ([177, 169, 2, 0, 0, 0, 0, 0, 0, 0, 0] : List Nat).length = 11 :=
  ⟨by decide, by decide⟩

/-- Claim C3, amended: for every 14-byte calibration blob, `set_calibration`
performs exactly three bus writes, in order: the apply-calibration command
byte 0x0B to the command register, the blob to the factory-calibration
base register, and the fixed **11**-entry algorithm-state constant to the
state-data write register. -/
theorem set_calibration_three_writes (self : TMF8805) (s : DriverState)
    (blob : List Nat) (_hlen : blob.length = 14) :
    (set_calibration self s blob).map DriverState.events =
      some (s.events ++
        [.write (hex_to_dec self.address) 16 [11],
         .write (hex_to_dec self.address) 32 blob,
         .write (hex_to_dec self.address) 46
           [177, 169, 2, 0, 0, 0, 0, 0, 0, 0, 0]]) := by
  rw [set_calibration_eq]
  simp

/-- Witness for the amended C3 on a concrete 14-byte blob. -/
theorem set_calibration_three_writes_witness :
    (set_calibration self41 initState (List.replicate 14 0)).map
        DriverState.events =
      some [.write 65 16 [11], .write 65 32 (List.replicate 14 0),
            .write 65 46 [177, 169, 2, 0, 0, 0, 0, 0, 0, 0, 0]] := by
  have := set_calibration_three_writes self41 initState (List.replicate 14 0)
    (by decide)
  simpa [self41, hex_addr41, initState] using this

/-- Claim C4, code bug: `reset_cpu` writes to the enable register the single
byte 0x31 — the ASCII code of `'1'`, coming from the Python bytes literal
`b"1"` in `set_register_bit` — and 0x31 has bits 0, 4 and 5 set: three
bits, none of them the CPU-reset bit 7, rather than exactly the one reset
bit. -/
theorem reset_cpu_writes_ascii_one (self : TMF8805) (s : DriverState) :
    (reset_cpu self s).events =
      s.events ++ [.write (hex_to_dec self.address) 224 [49]] ∧
    (List.range 8).filter (fun i => (49 : Nat).testBit i) = [0, 4, 5] :=
  ⟨rfl, by decide⟩

/-- Claim C6: when the configured address is absent from the bus scan,
`initialize` returns `False` with the driver state untouched — no
CPU-reset write and no CPU-ready polling happen. -/
theorem initSensor_absent (self : TMF8805) (bus : I2CBus) (s : DriverState)
    (h : hex_to_dec self.address ∉ bus.scanResult) :
    initSensor self bus s = (false, s) := by
  have hc : is_connected self bus = false := by
    unfold is_connected
    simpa using h
  unfold initSensor
  rw [hc]
  rfl

/-- Witness for C6 on a bus whose scan comes back empty. -/
theorem initSensor_absent_witness :
    initSensor self41 busEmptyScan initState = (false, initState) :=
  initSensor_absent self41 busEmptyScan initState (by decide)

/-- Claim C8: `get_status` returns the fixed pair exactly when the status
register reads 39, and otherwise the decimal string of the raw value with
description "N/A". -/
theorem get_status_decoding (self : TMF8805) (bus : I2CBus) (s : DriverState) :
    (fromBytesLE (bus.readMem 29 (s.counts 29) 1) = 39 →
      (get_status self bus s).1 =
        ("ErrMissingFactCal",
         "There is no (or no valid) factory calibration on the device. Using default values instead.")) ∧
    (fromBytesLE (bus.readMem 29 (s.counts 29) 1) ≠ 39 →
      (get_status self bus s).1 =
        (String.mk (pyStr (fromBytesLE (bus.readMem 29 (s.counts 29) 1))),
         "N/A")) := by
  unfold get_status
  simp only [read_single_byte, hex_STATUS_REG, MISSING_FACTORY_CALIBRATION]
  constructor
  · intro h
    rw [if_pos h]
  · intro h
    rw [if_neg h]

/-- Witness for C8: status 39 gives the fixed pair, status 9999 (the
repository mock's unknown-status fixture) gives ("9999", "N/A"). -/
theorem get_status_decoding_witness :
    (get_status self41 busStatus39 initState).1 =
      ("ErrMissingFactCal",
       "There is no (or no valid) factory calibration on the device. Using default values instead.") ∧
    (get_status self41 busStatus9999 initState).1 = ("9999", "N/A") := by
  constructor
  · exact (get_status_decoding self41 busStatus39 initState).1 (by decide)
  · have := (get_status_decoding self41 busStatus9999 initState).2 (by decide)
    rw [this]
    decide

/-- Claim C5: `initialize` returns `False` when the CPU-ready bit never
reads set within the 200-iteration budget, and `get_measurement` returns
the Python literal `False` — a returned value (`some`), not a raised
fault (`none`) — when the application-ready loop or the data-available
loop exhausts its budget. -/
theorem timeouts_return_false (self : TMF8805) (b1 b2 b3 : I2CBus)
    (hscan : hex_to_dec self.address ∈ b1.scanResult)
    (hcpu : ∀ k, k < 200 →
      cpuReadyGood (fromBytesLE (b1.readMem 224 k 1)) = false)
    (happ : ∀ k, k < 500 →
      appReadyGood (fromBytesLE (b2.readMem 0 k 1)) = false)
    (happ3 : fromBytesLE (b3.readMem 0 0 1) = 192)
    (hint3 : fromBytesLE (b3.readMem 225 0 1) ||| 1 ≤ 99)
    (hdata3 : ∀ k, k < 500 →
      dataAvailableGood (fromBytesLE (b3.readMem 30 k 1)) = false) :
    (initSensor self b1 initState).1 = false ∧
    (get_measurement self b2 initState).map Prod.fst = some .pyFalse ∧
    (get_measurement self b3 initState).map Prod.fst = some .pyFalse := by
  refine ⟨?_, ?_, ?_⟩
  · have hc : is_connected self b1 = true := by
      unfold is_connected
      simpa using hscan
    have hex : (is_cpu_ready self b1 (reset_cpu self initState)).1 = false :=
      (is_cpu_ready_exhaust self b1 (reset_cpu self initState)
        (by intro k hk
            simpa [reset_cpu, set_register_bit, initState] using hcpu k hk)).1
    simp [initSensor, hc, hex]
  · have e1 := load_measurement_application_eq self initState
    have hfalse : (is_application_ready self b2
        (writeto_mem initState (hex_to_dec self.address) 2 [192])).1 = false :=
      (is_application_ready_exhaust self b2 _
        (by intro k hk; simpa [initState] using happ k hk)).1
    simp [get_measurement, e1, hfalse]
  · have e1 := load_measurement_application_eq self initState
    have e2 : is_application_ready self b3
        (writeto_mem initState (hex_to_dec self.address) 2 [192]) =
        (true, bumpCount (writeto_mem initState (hex_to_dec self.address) 2 [192]) 0) :=
      is_application_ready_first self b3 _ happ3
    have e3 := start_measurement_application_eq self
      (bumpCount (writeto_mem initState (hex_to_dec self.address) 2 [192]) 0)
    have e4 : enable_interrupt self b3
        (writeto_mem (bumpCount (writeto_mem initState (hex_to_dec self.address) 2 [192]) 0)
          (hex_to_dec self.address) 16 [2]) =
        some (writeto_mem (bumpCount (writeto_mem (bumpCount (writeto_mem initState
            (hex_to_dec self.address) 2 [192]) 0) (hex_to_dec self.address) 16 [2]) 225)
          (hex_to_dec self.address) 226
          [16 * ((fromBytesLE (b3.readMem 225 0 1) ||| 1) / 10) +
            (fromBytesLE (b3.readMem 225 0 1) ||| 1) % 10]) :=
      enable_interrupt_le99 self b3 _ hint3
    have hfalse : (is_data_available self b3
        (writeto_mem (bumpCount (writeto_mem (bumpCount (writeto_mem initState
            (hex_to_dec self.address) 2 [192]) 0) (hex_to_dec self.address) 16 [2]) 225)
          (hex_to_dec self.address) 226
          [16 * ((fromBytesLE (b3.readMem 225 0 1) ||| 1) / 10) +
            (fromBytesLE (b3.readMem 225 0 1) ||| 1) % 10])).1 = false :=
      (is_data_available_exhaust self b3 _
        (by intro k hk; simpa [initState] using hdata3 k hk)).1
    simp [get_measurement, e1, e2, e3, e4, hfalse]

/-- Witness for C5: an all-zero bus times out the CPU-ready and
application-ready paths; a bus that only reports the application ID times
out the data-available path. -/
theorem timeouts_return_false_witness :
    (initSensor self41 busAllZero initState).1 = false ∧
    (get_measurement self41 busAllZero initState).map Prod.fst = some .pyFalse ∧
    (get_measurement self41 busNoData initState).map Prod.fst = some .pyFalse :=
  timeouts_return_false self41 busAllZero busAllZero busNoData (by decide)
    (by decide) (by decide) (by decide) (by decide) (by decide)

/-- Claim C9: each polling loop is budget-bounded with a definite boolean
outcome: it returns `true` as soon as the polled condition is first
observed (having consumed `k + 1` reads of the polled register), it
returns `false` exactly when every read within the budget (200 for
`is_cpu_ready`, 500 for `is_application_ready` and `is_data_available`)
fails, and its `true` outcome is equivalent to the condition appearing
within the budget. -/
theorem polling_loops_bounded (self : TMF8805) (b1 b2 b3 : I2CBus) :
    (∀ k, k < 200 →
      (∀ j, j < k → cpuReadyGood (fromBytesLE (b1.readMem 224 j 1)) = false) →
      cpuReadyGood (fromBytesLE (b1.readMem 224 k 1)) = true →
      (is_cpu_ready self b1 initState).1 = true ∧
      ((is_cpu_ready self b1 initState).2).counts 224 = k + 1) ∧
    ((∀ k, k < 200 → cpuReadyGood (fromBytesLE (b1.readMem 224 k 1)) = false) →
      (is_cpu_ready self b1 initState).1 = false ∧
      ((is_cpu_ready self b1 initState).2).counts 224 = 200) ∧
    ((is_cpu_ready self b1 initState).1 = true ↔
      ∃ k, k < 200 ∧ cpuReadyGood (fromBytesLE (b1.readMem 224 k 1)) = true) ∧
    (∀ k, k < 500 →
      (∀ j, j < k → appReadyGood (fromBytesLE (b2.readMem 0 j 1)) = false) →
      appReadyGood (fromBytesLE (b2.readMem 0 k 1)) = true →
      (is_application_ready self b2 initState).1 = true ∧
      ((is_application_ready self b2 initState).2).counts 0 = k + 1) ∧
    ((∀ k, k < 500 → appReadyGood (fromBytesLE (b2.readMem 0 k 1)) = false) →
      (is_application_ready self b2 initState).1 = false ∧
      ((is_application_ready self b2 initState).2).counts 0 = 500) ∧
    ((is_application_ready self b2 initState).1 = true ↔
      ∃ k, k < 500 ∧ appReadyGood (fromBytesLE (b2.readMem 0 k 1)) = true) ∧
    (∀ k, k < 500 →
      (∀ j, j < k → dataAvailableGood (fromBytesLE (b3.readMem 30 j 1)) = false) →
      dataAvailableGood (fromBytesLE (b3.readMem 30 k 1)) = true →
      (is_data_available self b3 initState).1 = true ∧
      ((is_data_available self b3 initState).2).counts 30 = k + 1) ∧
    ((∀ k, k < 500 → dataAvailableGood (fromBytesLE (b3.readMem 30 k 1)) = false) →
      (is_data_available self b3 initState).1 = false ∧
      ((is_data_available self b3 initState).2).counts 30 = 500) ∧
    ((is_data_available self b3 initState).1 = true ↔
      ∃ k, k < 500 ∧ dataAvailableGood (fromBytesLE (b3.readMem 30 k 1)) = true) := by
  refine ⟨?_, ?_, ?_, ?_, ?_, ?_, ?_, ?_, ?_⟩
  · intro k hk hb hf
    have := is_cpu_ready_found self b1 initState k hk
      (by intro j hj; simpa [initState] using hb j hj)
      (by simpa [initState] using hf)
    simpa [initState] using this
  · intro h
    have := is_cpu_ready_exhaust self b1 initState
      (by intro k hk; simpa [initState] using h k hk)
    simpa [initState] using this
  · have := is_cpu_ready_true_iff self b1 initState
    simpa [initState] using this
  · intro k hk hb hf
    have := is_application_ready_found self b2 initState k hk
      (by intro j hj; simpa [initState] using hb j hj)
      (by simpa [initState] using hf)
    simpa [initState] using this
  · intro h
    have := is_application_ready_exhaust self b2 initState
      (by intro k hk; simpa [initState] using h k hk)
    simpa [initState] using this
  · have := is_application_ready_true_iff self b2 initState
    simpa [initState] using this
  · intro k hk hb hf
    have := is_data_available_found self b3 initState k hk
      (by intro j hj; simpa [initState] using hb j hj)
      (by simpa [initState] using hf)
    simpa [initState] using this
  · intro h
    have := is_data_available_exhaust self b3 initState
      (by intro k hk; simpa [initState] using h k hk)
    simpa [initState] using this
  · have := is_data_available_true_iff self b3 initState
    simpa [initState] using this

/-- Witness for C9 on a bus whose conditions appear on a later read:
the CPU-ready bit on the second read (so two reads are consumed), the
application ID on the third, the data marker on the second. -/
theorem polling_loops_bounded_witness :
    (is_cpu_ready self41 busSecondTry initState).1 = true ∧
    ((is_cpu_ready self41 busSecondTry initState).2).counts 224 = 2 ∧
    (is_application_ready self41 busSecondTry initState).1 = true ∧
    (is_data_available self41 busSecondTry initState).1 = true := by
  obtain ⟨h1, _, _, h4, _, _, h7, _, _⟩ :=
    polling_loops_bounded self41 busSecondTry busSecondTry busSecondTry
  exact ⟨(h1 1 (by decide) (by decide) (by decide)).1,
    (h1 1 (by decide) (by decide) (by decide)).2,
    (h4 2 (by decide) (by decide) (by decide)).1,
    (h7 1 (by decide) (by decide) (by decide)).1⟩

/-- Claim C10: for every interrupt-status byte `v`, with `m = v | 1`:
`enable_interrupt` (and likewise `clear_interrupt_flag`, which targets
the interrupt-status register instead) writes the byte obtained by
parsing the decimal string of `m` as hexadecimal — `16 * (m / 10) + m % 10`,
which equals `m` exactly when `m ≤ 9` — and raises exactly when
`m ≥ 100`. -/
theorem interrupt_mask_decimal_as_hex (self : TMF8805) (bus : I2CBus)
    (s : DriverState)
    (hbyte : fromBytesLE (bus.readMem 225 (s.counts 225) 1) < 256) :
    (100 ≤ fromBytesLE (bus.readMem 225 (s.counts 225) 1) ||| 1 →
      enable_interrupt self bus s = none ∧
      clear_interrupt_flag self bus s = none) ∧
    (fromBytesLE (bus.readMem 225 (s.counts 225) 1) ||| 1 ≤ 99 →
      (enable_interrupt self bus s).map DriverState.events =
        some (s.events ++ [.write (hex_to_dec self.address) 226
          [16 * ((fromBytesLE (bus.readMem 225 (s.counts 225) 1) ||| 1) / 10) +
            (fromBytesLE (bus.readMem 225 (s.counts 225) 1) ||| 1) % 10]]) ∧
      (clear_interrupt_flag self bus s).map DriverState.events =
        some (s.events ++ [.write (hex_to_dec self.address) 225
          [16 * ((fromBytesLE (bus.readMem 225 (s.counts 225) 1) ||| 1) / 10) +
            (fromBytesLE (bus.readMem 225 (s.counts 225) 1) ||| 1) % 10]])) ∧
    (16 * ((fromBytesLE (bus.readMem 225 (s.counts 225) 1) ||| 1) / 10) +
        (fromBytesLE (bus.readMem 225 (s.counts 225) 1) ||| 1) % 10 =
      fromBytesLE (bus.readMem 225 (s.counts 225) 1) ||| 1 ↔
      fromBytesLE (bus.readMem 225 (s.counts 225) 1) ||| 1 ≤ 9) := by
  have hm : fromBytesLE (bus.readMem 225 (s.counts 225) 1) ||| 1 ≤ 255 := by
    have h2 : fromBytesLE (bus.readMem 225 (s.counts 225) 1) ||| 1 < 2 ^ 8 :=
      Nat.or_lt_two_pow (by simpa using hbyte) (by norm_num)
    omega
  refine ⟨?_, ?_, ?_⟩
  · intro h
    exact ⟨enable_interrupt_ge100 self bus s h hm,
      clear_interrupt_flag_ge100 self bus s h hm⟩
  · intro h
    constructor
    · rw [enable_interrupt_le99 self bus s h]
      simp
    · rw [clear_interrupt_flag_le99 self bus s h]
      simp
  · omega

/-- Witness for C10: interrupt-status byte 22 gives `m = 23` and the
written byte 0x23 = 35; interrupt-status byte 128 gives `m = 129` and a
raised `ValueError`. -/
theorem interrupt_mask_decimal_as_hex_witness :
    (enable_interrupt self41 busInt22 initState).map DriverState.events =
      some [.write 65 226 [35]] ∧
    enable_interrupt self41 busInt128 initState = none := by
  constructor
  · have := ((interrupt_mask_decimal_as_hex self41 busInt22 initState
      (by decide)).2.1 (by decide)).1
    rw [this]
    decide
  · exact ((interrupt_mask_decimal_as_hex self41 busInt128 initState
      (by decide)).1 (by decide)).1

/-- Claim C7: `perform_calibration` first writes the interrupt-enable value
and the factory-calibration command 0x0A, in that order; it then polls
the register-contents register, sleeping 50 ms before each poll, until
the register reads the calibration marker 0x0A or a clock reading is 30 s
or more past the starting one.  On success it sleeps a further 10 ms and
returns the 14-byte read from the factory-calibration base register; on
timeout it returns the empty blob — in both cases a `some` value, not a
raised fault.  (`bA` exercises the success path with the marker on poll
`K`; `bB` exercises the timeout path at clock check `KB`.) -/
theorem perform_calibration_contract (self : TMF8805) (bA bB : I2CBus)
    (K fuelA KB fuelB : Nat)
    (hintA : fromBytesLE (bA.readMem 225 0 1) ||| 1 ≤ 99)
    (hKA : K < fuelA)
    (htimeA : ∀ i, i ≤ K →
      ((bA.timeVal (1 + i) : Int) - (bA.timeVal 0 : Int)) < 30)
    (hmissA : ∀ i, i < K → fromBytesLE (bA.readMem 30 i 1) ≠ 10)
    (hhitA : fromBytesLE (bA.readMem 30 K 1) = 10)
    (hintB : fromBytesLE (bB.readMem 225 0 1) ||| 1 ≤ 99)
    (hKB : KB < fuelB)
    (hcontB : ∀ i, i < KB →
      ((bB.timeVal (1 + i) : Int) - (bB.timeVal 0 : Int)) < 30 ∧
      fromBytesLE (bB.readMem 30 i 1) ≠ 10)
    (htoB : ¬ (((bB.timeVal (1 + KB) : Int) - (bB.timeVal 0 : Int)) < 30)) :
    (perform_calibration self bA initState fuelA).map Prod.fst =
      some (bA.readMem 32 0 14) ∧
    (perform_calibration self bA initState fuelA).map (fun r => r.2.events) =
      some ([Event.write (hex_to_dec self.address) 226
          [16 * ((fromBytesLE (bA.readMem 225 0 1) ||| 1) / 10) +
            (fromBytesLE (bA.readMem 225 0 1) ||| 1) % 10],
        Event.write (hex_to_dec self.address) 16 [10]] ++
        List.replicate (K + 1) (Event.sleepMs 50) ++ [Event.sleepMs 10]) ∧
    (perform_calibration self bB initState fuelB).map Prod.fst = some [] ∧
    (perform_calibration self bB initState fuelB).map (fun r => r.2.events) =
      some ([Event.write (hex_to_dec self.address) 226
          [16 * ((fromBytesLE (bB.readMem 225 0 1) ||| 1) / 10) +
            (fromBytesLE (bB.readMem 225 0 1) ||| 1) % 10],
        Event.write (hex_to_dec self.address) 16 [10]] ++
        List.replicate KB (Event.sleepMs 50)) := by
  have eIA : enable_interrupt self bA initState =
      some (writeto_mem (bumpCount initState 225) (hex_to_dec self.address) 226
        [16 * ((fromBytesLE (bA.readMem 225 0 1) ||| 1) / 10) +
          (fromBytesLE (bA.readMem 225 0 1) ||| 1) % 10]) :=
    enable_interrupt_le99 self bA _ hintA
  have eIB : enable_interrupt self bB initState =
      some (writeto_mem (bumpCount initState 225) (hex_to_dec self.address) 226
        [16 * ((fromBytesLE (bB.readMem 225 0 1) ||| 1) / 10) +
          (fromBytesLE (bB.readMem 225 0 1) ||| 1) % 10]) :=
    enable_interrupt_le99 self bB _ hintB
  obtain ⟨LA1, LA2⟩ := calib_loop_success self bA (bA.timeVal 0) fuelA K
    ⟨fun r => if r = 225 then 1 else 0, 1,
     [Event.write (hex_to_dec self.address) 226
        [16 * ((fromBytesLE (bA.readMem 225 0 1) ||| 1) / 10) +
          (fromBytesLE (bA.readMem 225 0 1) ||| 1) % 10],
      Event.write (hex_to_dec self.address) 16 [10]]⟩ hKA
    (by intro i hi; simpa using htimeA i hi)
    (by intro i hi; simpa using hmissA i hi) (by simpa using hhitA)
  obtain ⟨LB1, LB2⟩ := calib_loop_timeout self bB (bB.timeVal 0) fuelB KB
    ⟨fun r => if r = 225 then 1 else 0, 1,
     [Event.write (hex_to_dec self.address) 226
        [16 * ((fromBytesLE (bB.readMem 225 0 1) ||| 1) / 10) +
          (fromBytesLE (bB.readMem 225 0 1) ||| 1) % 10],
      Event.write (hex_to_dec self.address) 16 [10]]⟩ hKB
    (by intro i hi; simpa using hcontB i hi) (by simpa using htoB)
  refine ⟨?_, ?_, ?_, ?_⟩
  · unfold perform_calibration
    rw [eIA]
    show (some (perform_calibration_loop self bA (bA.timeVal 0) fuelA
      ⟨fun r => if r = 225 then 1 else 0, 1,
       [Event.write (hex_to_dec self.address) 226
          [16 * ((fromBytesLE (bA.readMem 225 0 1) ||| 1) / 10) +
            (fromBytesLE (bA.readMem 225 0 1) ||| 1) % 10],
        Event.write (hex_to_dec self.address) 16 [10]]⟩)).map Prod.fst =
      some (bA.readMem 32 0 14)
    simp only [Option.map_some']
    rw [LA1]
    rfl
  · unfold perform_calibration
    rw [eIA]
    show (some (perform_calibration_loop self bA (bA.timeVal 0) fuelA
      ⟨fun r => if r = 225 then 1 else 0, 1,
       [Event.write (hex_to_dec self.address) 226
          [16 * ((fromBytesLE (bA.readMem 225 0 1) ||| 1) / 10) +
            (fromBytesLE (bA.readMem 225 0 1) ||| 1) % 10],
        Event.write (hex_to_dec self.address) 16 [10]]⟩)).map (fun r => r.2.events) =
      some ([Event.write (hex_to_dec self.address) 226
          [16 * ((fromBytesLE (bA.readMem 225 0 1) ||| 1) / 10) +
            (fromBytesLE (bA.readMem 225 0 1) ||| 1) % 10],
        Event.write (hex_to_dec self.address) 16 [10]] ++
        List.replicate (K + 1) (Event.sleepMs 50) ++ [Event.sleepMs 10])
    simp only [Option.map_some']
    rw [LA2]
  · unfold perform_calibration
    rw [eIB]
    show (some (perform_calibration_loop self bB (bB.timeVal 0) fuelB
      ⟨fun r => if r = 225 then 1 else 0, 1,
       [Event.write (hex_to_dec self.address) 226
          [16 * ((fromBytesLE (bB.readMem 225 0 1) ||| 1) / 10) +
            (fromBytesLE (bB.readMem 225 0 1) ||| 1) % 10],
        Event.write (hex_to_dec self.address) 16 [10]]⟩)).map Prod.fst = some []
    simp only [Option.map_some']
    rw [LB1]
  · unfold perform_calibration
    rw [eIB]
    show (some (perform_calibration_loop self bB (bB.timeVal 0) fuelB
      ⟨fun r => if r = 225 then 1 else 0, 1,
       [Event.write (hex_to_dec self.address) 226
          [16 * ((fromBytesLE (bB.readMem 225 0 1) ||| 1) / 10) +
            (fromBytesLE (bB.readMem 225 0 1) ||| 1) % 10],
        Event.write (hex_to_dec self.address) 16 [10]]⟩)).map (fun r => r.2.events) =
      some ([Event.write (hex_to_dec self.address) 226
          [16 * ((fromBytesLE (bB.readMem 225 0 1) ||| 1) / 10) +
            (fromBytesLE (bB.readMem 225 0 1) ||| 1) % 10],
        Event.write (hex_to_dec self.address) 16 [10]] ++
        List.replicate KB (Event.sleepMs 50))
    simp only [Option.map_some']
    rw [LB2]

/-- Witness for C7: on `busCalibOk` the marker appears at the first poll
and the 14-byte blob is returned; on `busCalibTimeout` the clock jumps
50 s, so the loop exits at once with the empty blob. -/
theorem perform_calibration_contract_witness :
    (perform_calibration self41 busCalibOk initState 1).map Prod.fst =
      some (List.replicate 14 7) ∧
    (perform_calibration self41 busCalibTimeout initState 1).map Prod.fst =
      some [] := by
  obtain ⟨h1, _, h3, _⟩ := perform_calibration_contract self41 busCalibOk
    busCalibTimeout 0 1 0 1 (by decide) (by decide)
    (by intro i hi; interval_cases i; decide)
    (by intro i hi; omega) (by decide) (by decide) (by decide)
    (by intro i hi; omega) (by decide)
  constructor
  · rw [h1]
    decide
  · exact h3
